import Mathlib

/-!
Verification development for the spectroscience.com retrieval subsystem.

The definitions below are a shallow embedding of the Python sources:
  - `auto_sync_course.py` : content scanner and knowledge-base store
  - `app.py`              : lexical retriever (`search_knowledge_base`)
  - `app_working.py`      : embedding retriever (`retrieve_relevant_context`)
                            and the upload ingestion path (`upload_file`)

Python strings are modelled as Lean `String` (a wrapper around `List Char`);
the handful of Python string primitives the code uses (`lower`, `split`,
`replace`, `startswith`, `endswith`, the `in` substring test, `int()`,
`pathlib.Path.suffix`) are given explicit structural definitions so that all
evaluation is kernel-computable.
-/

/-! ## Python string primitives -/

/-- `str.lower()` (ASCII case folding, as `Char.toLower`). -/
def strLower (s : String) : String := ⟨s.data.map Char.toLower⟩

/-- Does `p` occur as a leading piece of `s`?  (`str.startswith`). -/
def leadsWith : List Char → List Char → Bool
  | _, [] => true
  | [], _ :: _ => false
  | c :: s, d :: p => c == d && leadsWith s p

/-- `str.startswith(p)`. -/
def strStartsWith (s p : String) : Bool := leadsWith s.data p.data

/-- `str.endswith(p)`. -/
def strEndsWith (s p : String) : Bool := leadsWith s.data.reverse p.data.reverse

/-- Does `needle` occur contiguously inside `hay`?  (Python `needle in hay`). -/
def subOccurs (needle : List Char) : List Char → Bool
  | [] => needle.isEmpty
  | c :: rest => leadsWith (c :: rest) needle || subOccurs needle rest

/-- Python `needle in hay` on strings. -/
def strContains (hay needle : String) : Bool := subOccurs needle.data hay.data

/-- `str.split()` with no argument: split on runs of whitespace, dropping
empty pieces. -/
def splitWsAux (acc : List Char) : List Char → List (List Char)
  | [] => if acc.isEmpty then [] else [acc.reverse]
  | c :: rest =>
    if c.isWhitespace then
      if acc.isEmpty then splitWsAux [] rest
      else acc.reverse :: splitWsAux [] rest
    else splitWsAux (c :: acc) rest

/-- `str.split()` (whitespace tokenization). -/
def splitWs (s : String) : List String := (splitWsAux [] s.data).map (⟨·⟩)

/-- Auxiliary for `str.split(sep)` with a non-empty separator: the fuel
argument bounds the number of consumed characters (one unit per character),
keeping the recursion structural and kernel-computable. -/
def splitSepAux (sep : List Char) : Nat → List Char → List Char → List (List Char)
  | _, acc, [] => [acc.reverse]
  | 0, acc, s => [acc.reverse ++ s]
  | fuel + 1, acc, c :: rest =>
    if leadsWith (c :: rest) sep && !sep.isEmpty then
      acc.reverse :: splitSepAux sep fuel [] (rest.drop (sep.length - 1))
    else
      splitSepAux sep fuel (c :: acc) rest

/-- `str.split(sep)` for a non-empty separator: keeps empty pieces, exactly
as Python does. -/
def strSplitOn (s sep : String) : List String :=
  (splitSepAux sep.data s.data.length [] s.data).map (⟨·⟩)

/-- Auxiliary for `str.replace(pat, repl)` (non-empty `pat`), fuelled the
same way as `splitSepAux`. -/
def replaceAux (pat repl : List Char) : Nat → List Char → List Char
  | _, [] => []
  | 0, s => s
  | fuel + 1, c :: rest =>
    if leadsWith (c :: rest) pat && !pat.isEmpty then
      repl ++ replaceAux pat repl fuel (rest.drop (pat.length - 1))
    else
      c :: replaceAux pat repl fuel rest

/-- `str.replace(pat, repl)`: replaces every leftmost non-overlapping
occurrence.  (Python's behaviour for an empty pattern — inserting `repl`
between all characters — never arises in this code base; the identity is
used there.) -/
def pyReplace (s pat repl : String) : String :=
  if pat.data.isEmpty then s
  else ⟨replaceAux pat.data repl.data s.data.length s.data⟩

/-- `int(s)`: optional surrounding whitespace, optional sign, then a
non-empty digit run.  `none` models the `ValueError` that `int` raises on
anything else.  (Digit-group underscores, which never occur in the scanned
paths, are not modelled.) -/
def digitsVal : List Char → Option Nat
  | [] => none
  | [c] => if c.isDigit then some (c.toNat - 48) else none
  | c :: c2 :: rest =>
    if c.isDigit then
      match digitsVal (c2 :: rest) with
      | some v => some ((c.toNat - 48) * 10 ^ (c2 :: rest).length + v)
      | none => none
    else none

/-- `int(s)` as described above. -/
def pyInt? (s : String) : Option Int :=
  let t := s.data.dropWhile (·.isWhitespace)
  let t := (t.reverse.dropWhile (·.isWhitespace)).reverse
  match t with
  | '-' :: ds => (digitsVal ds).map (fun v => -(v : Int))
  | '+' :: ds => (digitsVal ds).map (fun v => (v : Int))
  | ds => (digitsVal ds).map (fun v => (v : Int))

/-- `pathlib.Path(name).suffix` for a name without path separators: the
final `"." ++ ext` piece, non-empty only when the last dot sits strictly
inside the name (CPython: `0 < i < len(name) - 1`). -/
def pySuffix (name : String) : String :=
  let cs := name.data
  match (cs.reverse.findIdx? (· == '.')) with
  | none => ""
  | some r =>
    let i := cs.length - 1 - r
    if 0 < i ∧ i < cs.length - 1 then ⟨cs.drop i⟩ else ""

/-! ## Data model of the scanner (`auto_sync_course.py`) -/

/-- One slide entry, as built at `auto_sync_course.py` lines 104-108. -/
structure SlideFile where
  filename : String
  cdn_url : String
  s3_key : String
deriving DecidableEq

/-- One video entry, as built at `auto_sync_course.py` lines 96-102. -/
structure VideoFile where
  filename : String
  cdn_url : String
  s3_key : String
  size : Int
  last_modified : String
deriving DecidableEq

/-- One document entry, as built at `auto_sync_course.py` lines 111-116. -/
structure DocFile where
  filename : String
  cdn_url : String
  s3_key : String
  type : String
deriving DecidableEq

/-- A lesson record, as built at `auto_sync_course.py` lines 74-87. -/
structure Lesson where
  lesson_key : String
  week : String
  week_num : Int
  lesson_id : String
  lesson_name : String
  s3_path : String
  cdn_base : String
  slide_count : Int
  slides : List SlideFile
  videos : List VideoFile
  documents : List DocFile
  last_modified : String
deriving DecidableEq

/-- One listed storage object (`Key`, `Size`, `LastModified`). -/
structure S3Object where
  key : String
  size : Int
  lastModified : String
deriving DecidableEq

def S3_BUCKET : String := "clovitek"

def S3_COURSE_PATH : String := "users/vitaly@clovitek.com/courses/NIR_Essentials_Course/"

def CDN_BASE_URL : String := "https://cdn.clovitek.com"

def VIDEO_EXTENSIONS : List String := [".mp4", ".webm", ".mov", ".avi", ".mkv"]

def IMAGE_EXTENSIONS : List String := [".png", ".jpg", ".jpeg", ".gif", ".webp"]

def DOCUMENT_EXTENSIONS : List String := [".pdf", ".docx", ".pptx", ".txt", ".md"]

/-! ## The content scanner (`scan_course_structure`, `auto_sync_course.py` 28-127) -/

/-- The fresh lesson record started at `auto_sync_course.py` lines 74-87. -/
def newLesson (obj : S3Object) (week_folder : String) (week_num : Int)
    (lesson_folder lesson_key : String) : Lesson :=
  { lesson_key := lesson_key
    week := week_folder
    week_num := week_num
    lesson_id := lesson_folder
    lesson_name := pyReplace lesson_folder "_" " "
    s3_path := "s3://" ++ S3_BUCKET ++ "/" ++ S3_COURSE_PATH ++ lesson_key ++ "/"
    cdn_base := CDN_BASE_URL ++ "/" ++ S3_COURSE_PATH ++ lesson_key ++ "/"
    slide_count := 0
    slides := []
    videos := []
    documents := []
    last_modified := obj.lastModified }

/-- File classification by extension (`auto_sync_course.py` lines 90-116). -/
def categorizeFile (obj : S3Object) (filename : String) (l : Lesson) : Lesson :=
  let file_ext := strLower (pySuffix filename)
  let cdn_url := CDN_BASE_URL ++ "/" ++ obj.key
  if VIDEO_EXTENSIONS.contains file_ext then
    { l with
      videos := l.videos ++ [{ filename := filename, cdn_url := cdn_url,
                               s3_key := obj.key, size := obj.size,
                               last_modified := obj.lastModified }] }
  else if IMAGE_EXTENSIONS.contains file_ext then
    { l with
      slides := l.slides ++ [{ filename := filename, cdn_url := cdn_url,
                               s3_key := obj.key }],
      slide_count := l.slide_count + 1 }
  else if DOCUMENT_EXTENSIONS.contains file_ext then
    { l with
      documents := l.documents ++ [{ filename := filename, cdn_url := cdn_url,
                                     s3_key := obj.key,
                                     type := ⟨file_ext.data.drop 1⟩ }] }
  else l

/-- One iteration of the scanner's object loop (`auto_sync_course.py` lines
45-116).  `Except.error ()` models the `ValueError` that `int(...)` raises
at line 58 when the text after `Week_`'s first underscore is not a number;
the exception propagates to the handler at lines 125-127 and aborts the
whole scan.  (The `[1]` subscript at line 58 cannot raise: the relative path
starts with `"Week_"`, so its first `/`-segment always splits on `_` into at
least two pieces; the `getD` default feeds `pyInt?` the empty string, which
is likewise an error.) -/
def processObj (obj : S3Object) (cur : Option Lesson) (acc : List Lesson) :
    Except Unit (Option Lesson × List Lesson) :=
  let relative_path := pyReplace obj.key S3_COURSE_PATH ""
  if strStartsWith relative_path "Week_" then
    let parts := strSplitOn relative_path "/"
    if parts.length < 2 then .ok (cur, acc)
    else
      let week_folder := parts.getD 0 ""
      match pyInt? ((strSplitOn week_folder "_").getD 1 "") with
      | none => .error ()
      | some week_num =>
        if strStartsWith (parts.getD 1 "") "L" then
          let lesson_folder := parts.getD 1 ""
          let lesson_key := week_folder ++ "/" ++ lesson_folder
          let startNew := newLesson obj week_folder week_num lesson_folder lesson_key
          let flushed :=
            match cur with
            | some l => if l.lesson_key == lesson_key then (l, acc) else (startNew, acc ++ [l])
            | none => (startNew, acc)
          let cur2 :=
            if 3 ≤ parts.length then categorizeFile obj (parts.getD 2 "") flushed.1
            else flushed.1
          .ok (some cur2, flushed.2)
        else .ok (cur, acc)
  else .ok (cur, acc)

/-- The scanner's loop over the (pagination-flattened) object listing. -/
def scanFold : List S3Object → Option Lesson → List Lesson →
    Except Unit (Option Lesson × List Lesson)
  | [], cur, acc => .ok (cur, acc)
  | o :: rest, cur, acc =>
    match processObj o cur acc with
    | .error e => .error e
    | .ok st => scanFold rest st.1 st.2

/-- `scan_course_structure()` applied to a given object listing: runs the
accumulator loop, flushes the final lesson (lines 118-120), and returns the
empty list when an exception aborted the scan (lines 125-127). -/
def scan_course_structure (objs : List S3Object) : List Lesson :=
  match scanFold objs none [] with
  | .error _ => []
  | .ok (cur, acc) =>
    match cur with
    | some l => acc ++ [l]
    | none => acc

/-! ## The knowledge-base store (`save_knowledge_base`, `auto_sync_course.py`
129-174, and the load at `app.py` 31-36)

The snapshot file holds `json.dump(lessons)`, i.e. a JSON document; the
loader runs `json.load` and uses the result as the lesson list.  JSON values
are modelled by the `Json` AST; `encodeLessons`/`decodeLessons` are the
(de)serialization of lesson records to and from that AST. -/

/-- A JSON value (the fragment `json.dump` produces for lesson records). -/
inductive Json where
  | str (s : String)
  | num (n : Int)
  | arr (elems : List Json)
  | obj (fields : List (String × Json))

/-- Key lookup in a JSON object's field list (first match). -/
def lookupField : List (String × Json) → String → Option Json
  | [], _ => none
  | kv :: rest, key => if kv.1 == key then some kv.2 else lookupField rest key

/-- `j[key]` on a JSON object. -/
def jField : Json → String → Option Json
  | .obj fs, key => lookupField fs key
  | _, _ => none

def asStr : Json → Option String
  | .str s => some s
  | _ => none

def asInt : Json → Option Int
  | .num n => some n
  | _ => none

def asArr : Json → Option (List Json)
  | .arr xs => some xs
  | _ => none

/-- Decode each element of a JSON array, failing if any element fails. -/
def decodeList (dec : Json → Option α) : List Json → Option (List α)
  | [] => some []
  | j :: js => do
    let a ← dec j
    let as ← decodeList dec js
    pure (a :: as)

def encodeSlide (s : SlideFile) : Json :=
  .obj [("filename", .str s.filename), ("cdn_url", .str s.cdn_url),
        ("s3_key", .str s.s3_key)]

def decodeSlide (j : Json) : Option SlideFile := do
  let filename ← jField j "filename" >>= asStr
  let cdn_url ← jField j "cdn_url" >>= asStr
  let s3_key ← jField j "s3_key" >>= asStr
  pure { filename := filename, cdn_url := cdn_url, s3_key := s3_key }

def encodeVideo (v : VideoFile) : Json :=
  .obj [("filename", .str v.filename), ("cdn_url", .str v.cdn_url),
        ("s3_key", .str v.s3_key), ("size", .num v.size),
        ("last_modified", .str v.last_modified)]

def decodeVideo (j : Json) : Option VideoFile := do
  let filename ← jField j "filename" >>= asStr
  let cdn_url ← jField j "cdn_url" >>= asStr
  let s3_key ← jField j "s3_key" >>= asStr
  let size ← jField j "size" >>= asInt
  let last_modified ← jField j "last_modified" >>= asStr
  pure { filename := filename, cdn_url := cdn_url, s3_key := s3_key,
         size := size, last_modified := last_modified }

def encodeDoc (d : DocFile) : Json :=
  .obj [("filename", .str d.filename), ("cdn_url", .str d.cdn_url),
        ("s3_key", .str d.s3_key), ("type", .str d.type)]

def decodeDoc (j : Json) : Option DocFile := do
  let filename ← jField j "filename" >>= asStr
  let cdn_url ← jField j "cdn_url" >>= asStr
  let s3_key ← jField j "s3_key" >>= asStr
  let type ← jField j "type" >>= asStr
  pure { filename := filename, cdn_url := cdn_url, s3_key := s3_key,
         type := type }

def encodeLesson (l : Lesson) : Json :=
  .obj [("lesson_key", .str l.lesson_key), ("week", .str l.week),
        ("week_num", .num l.week_num), ("lesson_id", .str l.lesson_id),
        ("lesson_name", .str l.lesson_name), ("s3_path", .str l.s3_path),
        ("cdn_base", .str l.cdn_base), ("slide_count", .num l.slide_count),
        ("slides", .arr (l.slides.map encodeSlide)),
        ("videos", .arr (l.videos.map encodeVideo)),
        ("documents", .arr (l.documents.map encodeDoc)),
        ("last_modified", .str l.last_modified)]

def decodeLesson (j : Json) : Option Lesson := do
  let lesson_key ← jField j "lesson_key" >>= asStr
  let week ← jField j "week" >>= asStr
  let week_num ← jField j "week_num" >>= asInt
  let lesson_id ← jField j "lesson_id" >>= asStr
  let lesson_name ← jField j "lesson_name" >>= asStr
  let s3_path ← jField j "s3_path" >>= asStr
  let cdn_base ← jField j "cdn_base" >>= asStr
  let slide_count ← jField j "slide_count" >>= asInt
  let slidesJ ← jField j "slides" >>= asArr
  let slides ← decodeList decodeSlide slidesJ
  let videosJ ← jField j "videos" >>= asArr
  let videos ← decodeList decodeVideo videosJ
  let documentsJ ← jField j "documents" >>= asArr
  let documents ← decodeList decodeDoc documentsJ
  let last_modified ← jField j "last_modified" >>= asStr
  pure { lesson_key := lesson_key, week := week, week_num := week_num,
         lesson_id := lesson_id, lesson_name := lesson_name,
         s3_path := s3_path, cdn_base := cdn_base, slide_count := slide_count,
         slides := slides, videos := videos, documents := documents,
         last_modified := last_modified }

/-- `json.dump(lessons)` of a lesson list. -/
def encodeLessons (ls : List Lesson) : Json := .arr (ls.map encodeLesson)

/-- Reading a lesson list back out of a JSON document. -/
def decodeLessons (j : Json) : Option (List Lesson) := do
  let js ← asArr j
  decodeList decodeLesson js

/-- The state of a persisted snapshot file: well-formed JSON text, or the
partial/truncated text a crash mid-`json.dump` leaves behind (on which
`json.load` raises). -/
inductive FileData where
  | jsonData (j : Json)
  | corrupt

/-- The two file locations `save_knowledge_base` touches:
`KNOWLEDGE_BASE_FILE` (primary) and `KNOWLEDGE_BASE_FILE + ".backup"`. -/
structure KBStore where
  primary : Option FileData
  backup : Option FileData

/-- `save_knowledge_base(lessons)` (`auto_sync_course.py` 129-174), success
path: `os.rename` the existing primary to the backup location (overwriting
any older backup), then write `json.dump(lessons)` to the primary.  Returns
the new store and `True`.  (The training-log file written afterwards is not
modelled: no claim mentions it.) -/
def save_knowledge_base (lessons : List Lesson) (fs : KBStore) : KBStore × Bool :=
  let fs1 : KBStore :=
    match fs.primary with
    | some d => { primary := none, backup := some d }
    | none => fs
  ({ fs1 with primary := some (.jsonData (encodeLessons lessons)) }, true)

/-- `save_knowledge_base` interrupted by a crash in the middle of the
`json.dump` at lines 139-140: the `os.rename` backup step has completed, and
the primary file holds truncated, unparseable text. -/
def save_knowledge_base_crashMidWrite (lessons : List Lesson) (fs : KBStore) :
    KBStore :=
  let fs1 : KBStore :=
    match fs.primary with
    | some d => { primary := none, backup := some d }
    | none => fs
  { fs1 with primary := some .corrupt }

/-- The load at `app.py` lines 31-36: `json.load` the primary snapshot file;
on a missing file, a parse error, or a document that is not a lesson list,
the `except` branch leaves the knowledge base empty.  The backup location is
never consulted. -/
def loadKnowledgeBase (fs : KBStore) : List Lesson :=
  match fs.primary with
  | some (.jsonData j) => (decodeLessons j).getD []
  | _ => []

/-! ## The lexical retriever (`search_knowledge_base`, `app.py` 60-102) -/

/-- The fixed topic taxonomy (`app.py` lines 66-72). -/
def topic_keywords : List (String × List String) :=
  [("calibration", ["calibration", "model", "prediction", "accuracy"]),
   ("instrumentation", ["instrument", "spectrometer", "detector", "hardware"]),
   ("applications", ["application", "agriculture", "pharmaceutical", "food", "industry"]),
   ("theory", ["theory", "wavelength", "absorption", "light", "molecular"]),
   ("data", ["data", "analysis", "chemometrics", "statistics"])]

/-- The relevance score computed for one entry inside the loop at `app.py`
lines 74-93: +10 for a query-token substring hit on the lesson name, +5 per
topic category matched on both sides, +2 for a non-empty video list, +1 for
a non-empty document list. -/
def scoreLesson (query : String) (l : Lesson) : Int :=
  let query_lower := strLower query
  let name_lower := strLower l.lesson_name
  let base : Int :=
    if (splitWs query_lower).any (fun word => strContains name_lower word) then 10
    else 0
  let withTopics :=
    topic_keywords.foldl
      (fun sc kv =>
        if kv.2.any (fun kw => strContains query_lower kw) &&
           kv.2.any (fun kw => strContains name_lower kw) then sc + 5
        else sc)
      base
  let withVideos := withTopics + (if l.videos.isEmpty then 0 else 2)
  withVideos + (if l.documents.isEmpty then 0 else 1)

/-- An in-memory knowledge-base entry of `app.py`: the lesson dict loaded
from the snapshot, plus the `relevance_score` key that
`search_knowledge_base` writes into the dict at line 96 (`none` before any
search has scored the entry). -/
structure KBEntry where
  lesson : Lesson
  relevance_score : Option Int
deriving DecidableEq

/-- The `for entry in knowledge_base` loop of `search_knowledge_base`
(`app.py` 74-97): returns the positive-scoring entries in knowledge-base
order together with the knowledge base after the loop.  The dict mutation
`entry['relevance_score'] = score` makes the appended result entry and the
stored entry one and the same object, so both components carry the
freshly-written score. -/
def searchPass (query : String) : List KBEntry → List KBEntry × List KBEntry
  | [] => ([], [])
  | e :: rest =>
    let score := scoreLesson query e.lesson
    let e' := if 0 < score then { e with relevance_score := some score } else e
    let tail := searchPass query rest
    ((if 0 < score then e' :: tail.1 else tail.1), e' :: tail.2)

/-- Stable descending insertion by an integer key: a new element goes in
front of the first element whose key is not larger, so elements with equal
keys keep their original relative order — the behaviour of Python's stable
`list.sort(key=..., reverse=True)` at `app.py` line 100. -/
def insertDescBy (key : α → Int) (x : α) : List α → List α
  | [] => [x]
  | y :: ys => if key y ≤ key x then x :: y :: ys else y :: insertDescBy key x ys

/-- Stable descending sort by an integer key. -/
def sortDescBy (key : α → Int) (l : List α) : List α := l.foldr (insertDescBy key) []

/-- `search_knowledge_base(query)` (`app.py` 60-102): score every entry,
keep the positive ones, sort them by `entry.get('relevance_score', 0)`
descending (stable), and return the first 3.  The second component is the
knowledge base as the loop leaves it. -/
def search_knowledge_base (kb : List KBEntry) (query : String) :
    List KBEntry × List KBEntry :=
  let pass := searchPass query kb
  ((sortDescBy (fun e => e.relevance_score.getD 0) pass.1).take 3, pass.2)

/-! ## The embedding retriever (`retrieve_relevant_context`,
`app_working.py` 86-99) and upload ingestion (`upload_file`, 238-290)

The sentence-transformer embedding is an external numeric model; it is
passed in as an abstract function `emb : String → List Int` (deterministic,
fixed dimension — integer coordinates, since only distance comparisons
matter to the retrieval logic).  The FAISS `IndexFlatL2` is modelled by its
documented exact-search contract: a query returns exactly `k` label slots,
the first `min(k, ntotal)` holding indices in ascending squared-L2-distance
order and the remaining slots padded with `-1`. -/

/-- A retrievable document of `app_working.py`'s knowledge base
(lines 62-66 and 267-271). -/
structure RagDoc where
  content : String
  source : String
  type : String
deriving DecidableEq

/-- Squared L2 distance between two vectors. -/
def sqDist (u v : List Int) : Int :=
  (List.zipWith (fun a b => (a - b) * (a - b)) u v).sum

/-- Stable ascending insertion by an integer key. -/
def insertAscBy (key : α → Int) (x : α) : List α → List α
  | [] => [x]
  | y :: ys => if key x ≤ key y then x :: y :: ys else y :: insertAscBy key x ys

/-- Stable ascending sort by an integer key. -/
def sortAscBy (key : α → Int) (l : List α) : List α := l.foldr (insertAscBy key) []

/-- `faiss.IndexFlatL2.search` over the stored vectors `vecs` for one query
vector: exactly `k` result slots; valid indices in ascending distance order
first, then `-1` padding when fewer than `k` vectors are stored. -/
def faissSearchL2 (vecs : List (List Int)) (q : List Int) (k : Nat) : List Int :=
  let order := sortAscBy (fun i => sqDist (vecs.getD i []) q) (List.range vecs.length)
  let top := order.take k
  top.map Int.ofNat ++ List.replicate (k - top.length) (-1)

/-- Python `knowledge_base[idx]` for a possibly negative `idx`: a negative
index wraps around from the end of the list; `none` models the `IndexError`
raised outside `[-len, len)`. -/
def pyListGet (kb : List RagDoc) (i : Int) : Option RagDoc :=
  let j : Int := if i < 0 then (kb.length : Int) + i else i
  if h : 0 ≤ j ∧ j.toNat < kb.length then some (kb.get ⟨j.toNat, h.2⟩) else none

/-- `retrieve_relevant_context(query, top_k)` (`app_working.py` 86-99):
guard on a missing index or empty corpus, search the index, and keep each
returned label `idx` satisfying `idx < len(knowledge_base)` — a check that
a `-1` padding label also passes, upon which `knowledge_base[idx]` wraps to
the last document.  (The `none` branch of `pyListGet` would be an
`IndexError`; it is unreachable for labels the index search produces when
the index was built from the current corpus.) -/
def retrieve_relevant_context (emb : String → List Int) (kb : List RagDoc)
    (faiss_index : Option (List (List Int))) (query : String) (top_k : Nat) :
    List RagDoc :=
  match faiss_index with
  | none => []
  | some vecs =>
    if kb.isEmpty then []
    else
      let indices := faissSearchL2 vecs (emb query) top_k
      indices.foldl
        (fun results idx =>
          if idx < (kb.length : Int) then
            match pyListGet kb idx with
            | some d => results ++ [d]
            | none => results
          else results)
        []

/-- The index `load_course_materials` / `upload_file` build from the current
corpus (`app_working.py` 72-79 and 273-280). -/
def buildFaissIndex (emb : String → List Int) (kb : List RagDoc) : List (List Int) :=
  kb.map (fun d => emb d.content)

/-- The text-extraction callbacks `extract_text_from_file` dispatches to
(PyPDF2, python-docx, python-pptx, UTF-8 decoding): external libraries,
abstracted as functions from raw bytes to extracted text, `none` standing
for a raised extraction error. -/
structure Extractors where
  pdf : List Nat → Option String
  docxText : List Nat → Option String
  pptxText : List Nat → Option String
  txt : List Nat → Option String

/-- `extract_text_from_file(file_content, filename)` (`app_working.py`
101-133): dispatch on the filename extension; any unsupported extension
returns `None`, and an extraction exception is caught and also returns
`None`. -/
def extract_text_from_file (ex : Extractors) (file_content : List Nat)
    (filename : String) : Option String :=
  if strEndsWith filename ".pdf" then ex.pdf file_content
  else if strEndsWith filename ".docx" then ex.docxText file_content
  else if strEndsWith filename ".pptx" then ex.pptxText file_content
  else if strEndsWith filename ".txt" then ex.txt file_content
  else none

/-- The mutable state of `app_working.py` that `upload_file` touches: the
corpus, the FAISS index, and the S3 objects written so far. -/
structure AppState where
  knowledge_base : List RagDoc
  faiss_index : Option (List (List Int))
  s3_objects : List (String × List Nat)
deriving DecidableEq

/-- The HTTP response `upload_file` produces. -/
inductive UploadResult where
  | err (msg : String) (code : Nat)
  | ok (msg : String) (total_documents : Nat)
deriving DecidableEq

/-- `upload_file()` (`app_working.py` 238-290) for a request that did carry
a file part: check the filename, run `secure_filename` (the external
werkzeug sanitizer, abstracted as `sec`), extract text, and only then write
the object to S3, append to the corpus, and rebuild the FAISS index.  The
Python guard `if not extracted_text` rejects both `None` and the empty
string. -/
def upload_file (ex : Extractors) (sec : String → String)
    (emb : String → List Int) (st : AppState) (filename : String)
    (file_content : List Nat) : UploadResult × AppState :=
  if filename == "" then (.err "No file selected" 400, st)
  else
    let fname := sec filename
    match extract_text_from_file ex file_content fname with
    | none => (.err "Could not extract text from file" 400, st)
    | some text =>
      if text == "" then (.err "Could not extract text from file" 400, st)
      else
        let kb' := st.knowledge_base ++ [{ content := text, source := fname,
                                           type := "upload" }]
        (.ok ("File uploaded and processed: " ++ fname) kb'.length,
         { knowledge_base := kb'
           faiss_index := some (buildFaissIndex emb kb')
           s3_objects := st.s3_objects ++
             [("users/vitaly/uploads/" ++ fname, file_content)] })

/-! ## Spec-side definitions and concrete fixtures -/

/-- The lexical score as the specification words it (for comparison with the
implementation's `scoreLesson`): 10 if any whitespace-separated lowercased
query token is a substring of the lowercased display name, plus 5 for each
taxonomy category with a representative keyword in the query and one in the
lesson name, plus 2 for at least one video, plus 1 for at least one
document. -/
def specLexicalScore (query : String) (l : Lesson) : Int :=
  (if (splitWs (strLower query)).any
      (fun word => strContains (strLower l.lesson_name) word) then 10 else 0)
  + 5 * (topic_keywords.countP
      (fun kv => kv.2.any (fun kw => strContains (strLower query) kw) &&
                 kv.2.any (fun kw => strContains (strLower l.lesson_name) kw)) : Int)
  + (if l.videos ≠ [] then 2 else 0)
  + (if l.documents ≠ [] then 1 else 0)

/-- The update `search_knowledge_base`'s loop applies to one stored entry. -/
def scoreUpdate (query : String) (e : KBEntry) : KBEntry :=
  if 0 < scoreLesson query e.lesson then
    { e with relevance_score := some (scoreLesson query e.lesson) }
  else e

/-- Objects whose scan-relative path places them under a `Week_` folder
(the condition of the `continue` at `auto_sync_course.py` lines 49-51). -/
def isWeekObj (o : S3Object) : Bool :=
  strStartsWith (pyReplace o.key S3_COURSE_PATH "") "Week_"

/-- Fixture: a video entry. -/
def exVid : VideoFile := ⟨"v.mp4", "u", "k", 1, "t"⟩

/-- Fixture: a lesson with one video and nothing else, display name
`"Intro"`. -/
def exLessonMedia : Lesson :=
  ⟨"Week_01/L1", "Week_01", 1, "L1", "Intro", "s3p", "cdnb", 0, [], [exVid], [], "t"⟩

/-- Fixture: a lesson with no videos and no documents, display name
`"Intro"`. -/
def exLessonBare : Lesson :=
  ⟨"Week_01/L1", "Week_01", 1, "L1", "Intro", "s3p", "cdnb", 0, [], [], [], "t"⟩

/-- Fixture: a full lesson record used for persistence round-trips. -/
def exLesson0 : Lesson :=
  ⟨"Week_01/L1", "Week_01", 1, "L1", "L1", "s3p", "cdnb", 1,
   [⟨"s.png", "u", "k"⟩], [exVid], [⟨"d.pdf", "u", "k", "pdf"⟩], "t"⟩

/-- Fixture: a second lesson record, distinct from `exLesson0`. -/
def exLesson1 : Lesson :=
  ⟨"Week_02/L3", "Week_02", 2, "L3", "L3", "s3p2", "cdnb2", 0, [], [], [], "t2"⟩

/-- Fixture: a store whose primary snapshot holds `[exLesson0]`. -/
def exStore0 : KBStore := ⟨some (.jsonData (encodeLessons [exLesson0])), none⟩

/-- Fixture: two embedding-retriever documents. -/
def exDoc0 : RagDoc := ⟨"alpha", "s0", "lesson"⟩

def exDoc1 : RagDoc := ⟨"beta", "s1", "lesson"⟩

/-- Fixture: a deterministic embedding assigning distinct vectors to the two
document contents and to the query. -/
def exEmb : String → List Int :=
  fun s => if s == "alpha" then [0] else if s == "beta" then [10] else [1]

/-- Fixture: a two-document corpus. -/
def exKB1 : List RagDoc := [exDoc0, exDoc1]

/-- Fixture: the C8 object listing, in path-sorted order. -/
def exScanObjs : List S3Object :=
  [⟨S3_COURSE_PATH ++ "Week_01/L1/video.mp4", 100, "t1"⟩,
   ⟨S3_COURSE_PATH ++ "Week_01/L1/slide1.png", 50, "t2"⟩,
   ⟨S3_COURSE_PATH ++ "Week_01/L2/doc.pdf", 10, "t3"⟩]

/-- Fixture: a well-formed lesson object followed by an object whose first
segment starts with `Week_` but is not `Week_` + number. -/
def exScanObjsBad : List S3Object :=
  [⟨S3_COURSE_PATH ++ "Week_01/L1/video.mp4", 100, "t1"⟩,
   ⟨S3_COURSE_PATH ++ "Week_AA/L2/x.mp4", 10, "t3"⟩]

/-- Fixture: extractors that always succeed (never consulted on unsupported
extensions). -/
def exExtractors : Extractors :=
  ⟨fun _ => some "text", fun _ => some "text", fun _ => some "text",
   fun _ => some "text"⟩

/-- Fixture: an application state with one document and a built index. -/
def exAppState : AppState :=
  ⟨[exDoc0], some (buildFaissIndex exEmb [exDoc0]), [("k", [1])]⟩

/-! ## Lemmas about the lexical retriever -/

theorem topicFold_countP (qs ns : String) (L : List (String × List String)) (b : Int) :
    L.foldl (fun sc kv =>
        if kv.2.any (fun kw => strContains qs kw) &&
           kv.2.any (fun kw => strContains ns kw) then sc + 5 else sc) b
      = b + 5 * (L.countP (fun kv =>
          kv.2.any (fun kw => strContains qs kw) &&
          kv.2.any (fun kw => strContains ns kw)) : Int) := by
  induction L generalizing b with
  | nil => simp
  | cons x xs ih =>
    simp only [List.foldl_cons, List.countP_cons, ih]
    by_cases h : x.2.any (fun kw => strContains qs kw) &&
        x.2.any (fun kw => strContains ns kw)
    · simp [h]
      ring
    · simp [h]

theorem scoreLesson_spec_aux (q : String) (l : Lesson) :
    scoreLesson q l = specLexicalScore q l := by
  unfold scoreLesson specLexicalScore
  dsimp only
  rw [topicFold_countP (strLower q) (strLower l.lesson_name)]
  rcases hv : l.videos with _ | _ <;> rcases hd : l.documents with _ | _ <;>
    simp [hv, hd]

theorem scoreUpdate_lesson (q : String) (e : KBEntry) :
    (scoreUpdate q e).lesson = e.lesson := by
  unfold scoreUpdate
  split <;> rfl

theorem scoreUpdate_idem (q : String) (e : KBEntry) :
    scoreUpdate q (scoreUpdate q e) = scoreUpdate q e := by
  unfold scoreUpdate
  by_cases h : 0 < scoreLesson q e.lesson <;> simp [h]

theorem searchPass_snd (q : String) (kb : List KBEntry) :
    (searchPass q kb).2 = kb.map (scoreUpdate q) := by
  induction kb with
  | nil => rfl
  | cons e rest ih => simp [searchPass, scoreUpdate, ih]

theorem searchPass_fst (q : String) (kb : List KBEntry) :
    (searchPass q kb).1 = (kb.map (scoreUpdate q)).filter
      (fun e => decide (0 < scoreLesson q e.lesson)) := by
  induction kb with
  | nil => rfl
  | cons e rest ih =>
    simp only [searchPass, List.map_cons, List.filter_cons, scoreUpdate_lesson]
    by_cases h : 0 < scoreLesson q e.lesson
    · simp [h, ih, scoreUpdate, searchPass]
    · simp [h, ih, scoreUpdate, searchPass]

theorem searchPass_fst_mem (q : String) (kb : List KBEntry) (e : KBEntry)
    (he : e ∈ (searchPass q kb).1) :
    0 < scoreLesson q e.lesson ∧
    e.relevance_score = some (scoreLesson q e.lesson) := by
  induction kb with
  | nil => simp [searchPass] at he
  | cons x rest ih =>
    simp only [searchPass] at he
    by_cases h : 0 < scoreLesson q x.lesson
    · simp only [if_pos h, List.mem_cons] at he
      rcases he with he | he
      · subst he
        exact ⟨h, rfl⟩
      · exact ih he
    · simp only [if_neg h] at he
      exact ih he

theorem mem_insertDescBy (key : α → Int) (x a : α) (l : List α) :
    a ∈ insertDescBy key x l ↔ a = x ∨ a ∈ l := by
  induction l with
  | nil => simp [insertDescBy]
  | cons y ys ih =>
    unfold insertDescBy
    by_cases h : key y ≤ key x
    · simp [h]
    · simp only [if_neg h, List.mem_cons, ih]
      tauto

theorem mem_sortDescBy (key : α → Int) (l : List α) (a : α) :
    a ∈ sortDescBy key l ↔ a ∈ l := by
  induction l with
  | nil => rfl
  | cons x xs ih =>
    simp [sortDescBy, mem_insertDescBy, List.mem_cons] at ih ⊢
    rw [ih]

theorem map_scoreUpdate_idem (q : String) (kb : List KBEntry) :
    (kb.map (scoreUpdate q)).map (scoreUpdate q) = kb.map (scoreUpdate q) := by
  induction kb with
  | nil => rfl
  | cons e rest ih => simp [scoreUpdate_idem, ih]

/-- Claim C5: for every lesson and query, the lexical relevance score
computed by `search_knowledge_base` equals the sum the specification
describes: 10 for a lowercased whitespace-token substring hit on the display
name, plus 5 for each taxonomy category with a representative keyword
occurring in the query and one occurring in the lesson name, plus 2 for at
least one video, plus 1 for at least one document. -/
theorem lexicalScore_matches_spec (q : String) (l : Lesson) :
    scoreLesson q l = specLexicalScore q l :=
  scoreLesson_spec_aux q l

/-- Claim C5 witness: the equality evaluated at a concrete query and
lesson. -/
theorem lexicalScore_matches_spec_witness :
    scoreLesson "calibration" exLessonMedia = specLexicalScore "calibration" exLessonMedia :=
  lexicalScore_matches_spec "calibration" exLessonMedia

/-- Claim C4: for every knowledge base and query, `search_knowledge_base`
returns at most 3 entries, and every returned entry carries a strictly
positive relevance score (zero-scoring lessons are excluded entirely). -/
theorem lexicalSearch_top3_positive (kb : List KBEntry) (q : String) :
    (search_knowledge_base kb q).1.length ≤ 3 ∧
    ∀ e ∈ (search_knowledge_base kb q).1,
      0 < scoreLesson q e.lesson ∧
      e.relevance_score = some (scoreLesson q e.lesson) := by
  constructor
  · show ((sortDescBy _ (searchPass q kb).1).take 3).length ≤ 3
    rw [List.length_take]
    exact min_le_left _ _
  · intro e he
    have h1 : e ∈ sortDescBy (fun e => e.relevance_score.getD 0) (searchPass q kb).1 :=
      List.take_subset _ _ he
    have h2 : e ∈ (searchPass q kb).1 := (mem_sortDescBy _ _ _).mp h1
    exact searchPass_fst_mem q kb e h2

/-- Claim C4 witness: the length bound evaluated at a concrete knowledge
base and query. -/
theorem lexicalSearch_top3_positive_witness :
    (search_knowledge_base [⟨exLessonMedia, none⟩] "calibration").1.length ≤ 3 :=
  (lexicalSearch_top3_positive [⟨exLessonMedia, none⟩] "calibration").1

/-- Claim C3 counterexample: for the query `"zzz"` no query token is a
substring of the lesson name `"Intro"` and no topic category double-matches,
yet `search_knowledge_base` returns a non-empty result, because the lesson's
video earns the +2 media boost.  The claim as stated is therefore false. -/
theorem lexicalSearch_media_boost_nonempty :
    ((splitWs (strLower "zzz")).any
        (fun word => strContains (strLower exLessonMedia.lesson_name) word)) = false
    ∧ (topic_keywords.all (fun kv =>
        !(kv.2.any (fun kw => strContains (strLower "zzz") kw) &&
          kv.2.any (fun kw => strContains (strLower exLessonMedia.lesson_name) kw)))) = true
    ∧ (search_knowledge_base [⟨exLessonMedia, none⟩] "zzz").1 ≠ [] := by
  decide

/-- Claim C3 (amended): for every knowledge base in which no lesson has
videos or documents, a query whose tokens match no lesson (no token
substring hit, no topic double-match) makes `search_knowledge_base` return
the empty sequence — an ordinary result, not an error. -/
theorem lexicalSearch_no_match_no_media_empty (kb : List KBEntry) (q : String)
    (hname : ∀ e ∈ kb, ((splitWs (strLower q)).any
        (fun word => strContains (strLower e.lesson.lesson_name) word)) = false)
    (htopic : ∀ e ∈ kb, ∀ kv ∈ topic_keywords,
        (kv.2.any (fun kw => strContains (strLower q) kw) &&
         kv.2.any (fun kw => strContains (strLower e.lesson.lesson_name) kw)) = false)
    (hmedia : ∀ e ∈ kb, e.lesson.videos = [] ∧ e.lesson.documents = []) :
    (search_knowledge_base kb q).1 = [] := by
  have hzero : ∀ e ∈ kb, scoreLesson q e.lesson = 0 := by
    intro e he
    rw [scoreLesson_spec_aux]
    unfold specLexicalScore
    have hcount : topic_keywords.countP (fun kv =>
        kv.2.any (fun kw => strContains (strLower q) kw) &&
        kv.2.any (fun kw => strContains (strLower e.lesson.lesson_name) kw)) = 0 := by
      rw [List.countP_eq_zero]
      intro kv hkv
      simp [htopic e he kv hkv]
    simp [hname e he, hcount, (hmedia e he).1, (hmedia e he).2]
  have hnil : (searchPass q kb).1 = [] := by
    rw [searchPass_fst]
    rw [List.filter_eq_nil_iff]
    intro a ha
    rcases List.mem_map.mp ha with ⟨e, he, rfl⟩
    rw [scoreUpdate_lesson, hzero e he]
    simp
  show ((sortDescBy _ (searchPass q kb).1).take 3) = []
  rw [hnil]
  rfl

/-- Claim C3 witness: the amended statement applied to a one-lesson
knowledge base with no media and the non-matching query `"zzz"`. -/
theorem lexicalSearch_no_match_no_media_empty_witness :
    (search_knowledge_base [⟨exLessonBare, none⟩] "zzz").1 = [] :=
  lexicalSearch_no_match_no_media_empty [⟨exLessonBare, none⟩] "zzz"
    (by decide) (by decide) (by decide)

/-- Claim C9: `search_knowledge_base` is not read-only — it rewrites the
knowledge base so that every entry with a positive score carries the
freshly-computed `relevance_score` field (all other fields, i.e. the lesson
record itself, are untouched, and zero-scoring entries are left exactly as
they were), and searching the updated knowledge base with the same query
reproduces the identical result and state. -/
theorem lexicalSearch_state_effect (kb : List KBEntry) (q : String) :
    (search_knowledge_base kb q).2 = kb.map (fun e =>
        if 0 < scoreLesson q e.lesson then
          { e with relevance_score := some (scoreLesson q e.lesson) }
        else e)
    ∧ search_knowledge_base ((search_knowledge_base kb q).2) q
        = search_knowledge_base kb q := by
  constructor
  · exact searchPass_snd q kb
  · show search_knowledge_base (searchPass q kb).2 q = search_knowledge_base kb q
    rw [searchPass_snd]
    unfold search_knowledge_base
    dsimp only
    rw [searchPass_fst, searchPass_fst, searchPass_snd, searchPass_snd,
        map_scoreUpdate_idem]

/-- Claim C9 witness: the repeat-search component at a concrete knowledge
base and query. -/
theorem lexicalSearch_state_effect_witness :
    search_knowledge_base ((search_knowledge_base [⟨exLessonMedia, none⟩] "zzz").2) "zzz"
      = search_knowledge_base [⟨exLessonMedia, none⟩] "zzz" :=
  (lexicalSearch_state_effect [⟨exLessonMedia, none⟩] "zzz").2

/-! ## Lemmas and theorems about the content scanner -/

theorem processObj_notweek (o : S3Object) (cur : Option Lesson) (acc : List Lesson)
    (h : isWeekObj o = false) : processObj o cur acc = .ok (cur, acc) := by
  unfold isWeekObj at h
  unfold processObj
  dsimp only
  rw [h]
  rfl

theorem scanFold_filter_week (objs : List S3Object) :
    ∀ cur acc, scanFold (objs.filter isWeekObj) cur acc = scanFold objs cur acc := by
  induction objs with
  | nil => intro cur acc; rfl
  | cons o rest ih =>
    intro cur acc
    by_cases h : isWeekObj o
    · rw [List.filter_cons_of_pos h]
      show scanFold (o :: rest.filter isWeekObj) cur acc = scanFold (o :: rest) cur acc
      unfold scanFold
      cases hp : processObj o cur acc with
      | error e => rfl
      | ok st => exact ih st.1 st.2
    · have hf : isWeekObj o = false := by
        revert h
        cases isWeekObj o <;> simp
      rw [List.filter_cons_of_neg (by simp [hf])]
      have h1 : scanFold (o :: rest) cur acc = scanFold rest cur acc := by
        show (match processObj o cur acc with
              | .error e => .error e
              | .ok st => scanFold rest st.1 st.2) = scanFold rest cur acc
        rw [processObj_notweek o cur acc hf]
      rw [h1]
      exact ih cur acc

/-- Claim C6 counterexample: the listing holding the well-formed object
`Week_01/L1/video.mp4` alone yields one lesson, but adding the object
`Week_AA/L2/x.mp4` — whose first segment is not a recognized week folder —
makes the whole scan abort and return the empty list, instead of discarding
that object and keeping the lesson.  The claim as stated is therefore
false. -/
theorem scan_malformed_week_aborts :
    scan_course_structure exScanObjsBad = [] ∧
    scan_course_structure [⟨S3_COURSE_PATH ++ "Week_01/L1/video.mp4", 100, "t1"⟩] ≠ [] := by
  decide

/-- Claim C6 (amended): every object whose scan-relative path does not start
with the literal `Week_` tag is discarded by the scan without affecting the
lessons produced from the remaining objects — the scan of any listing equals
the scan of its `Week_`-prefixed objects only.  (An object whose first
segment starts with `Week_` but is not followed by a number instead aborts
the whole scan, which returns the empty list.) -/
theorem scan_discard_nonweek (objs : List S3Object) :
    scan_course_structure objs = scan_course_structure (objs.filter isWeekObj) := by
  unfold scan_course_structure
  rw [scanFold_filter_week]

/-- Claim C6 witness: the filtering equation at a concrete listing that
contains both recognised and unrecognised objects. -/
theorem scan_discard_nonweek_witness :
    scan_course_structure [⟨S3_COURSE_PATH ++ "Week_01/L1/video.mp4", 100, "t1"⟩,
                           ⟨S3_COURSE_PATH ++ "other/readme.txt", 1, "t0"⟩]
      = scan_course_structure
          ([⟨S3_COURSE_PATH ++ "Week_01/L1/video.mp4", 100, "t1"⟩,
            ⟨S3_COURSE_PATH ++ "other/readme.txt", 1, "t0"⟩].filter isWeekObj) :=
  scan_discard_nonweek _

/-- Claim C8: scanning the path-sorted listing `Week_01/L1/video.mp4`,
`Week_01/L1/slide1.png`, `Week_01/L2/doc.pdf` yields exactly two lessons:
`Week_01/L1` with one slide, one video and no documents, and `Week_01/L2`
with no slides, no videos and one document — in particular the final
accumulated lesson is flushed, not dropped. -/
theorem scan_example_two_lessons :
    (scan_course_structure exScanObjs).length = 2 ∧
    ((scan_course_structure exScanObjs).getD 0 exLesson0).lesson_key = "Week_01/L1" ∧
    ((scan_course_structure exScanObjs).getD 0 exLesson0).slide_count = 1 ∧
    ((scan_course_structure exScanObjs).getD 0 exLesson0).slides.length = 1 ∧
    ((scan_course_structure exScanObjs).getD 0 exLesson0).videos.length = 1 ∧
    ((scan_course_structure exScanObjs).getD 0 exLesson0).documents.length = 0 ∧
    ((scan_course_structure exScanObjs).getD 1 exLesson0).lesson_key = "Week_01/L2" ∧
    ((scan_course_structure exScanObjs).getD 1 exLesson0).slide_count = 0 ∧
    ((scan_course_structure exScanObjs).getD 1 exLesson0).slides.length = 0 ∧
    ((scan_course_structure exScanObjs).getD 1 exLesson0).videos.length = 0 ∧
    ((scan_course_structure exScanObjs).getD 1 exLesson0).documents.length = 1 := by
  decide

/-! ## Lemmas and theorems about the knowledge-base store -/

theorem decodeList_map (dec : Json → Option α) (enc : α → Json)
    (h : ∀ a, dec (enc a) = some a) :
    ∀ xs : List α, decodeList dec (xs.map enc) = some xs := by
  intro xs
  induction xs with
  | nil => rfl
  | cons a as ih => simp [decodeList, h, ih]

theorem decodeSlide_enc (s : SlideFile) : decodeSlide (encodeSlide s) = some s := by
  cases s
  rfl

theorem decodeVideo_enc (v : VideoFile) : decodeVideo (encodeVideo v) = some v := by
  cases v
  rfl

theorem decodeDoc_enc (d : DocFile) : decodeDoc (encodeDoc d) = some d := by
  cases d
  rfl

theorem decodeLesson_enc (l : Lesson) : decodeLesson (encodeLesson l) = some l := by
  cases l
  simp [decodeLesson, encodeLesson, jField, lookupField, asStr, asInt, asArr,
        decodeList_map decodeSlide encodeSlide decodeSlide_enc,
        decodeList_map decodeVideo encodeVideo decodeVideo_enc,
        decodeList_map decodeDoc encodeDoc decodeDoc_enc]

theorem decodeLessons_enc (K : List Lesson) :
    decodeLessons (encodeLessons K) = some K := by
  simp [decodeLessons, encodeLessons, asArr,
        decodeList_map decodeLesson encodeLesson decodeLesson_enc]

/-- Claim C7: persisting any knowledge base with `save_knowledge_base` and
then loading it returns the same sequence of lessons — the serialize-then-
parse round-trip is the identity. -/
theorem knowledge_base_roundtrip (K : List Lesson) (fs : KBStore) :
    loadKnowledgeBase (save_knowledge_base K fs).1 = K := by
  unfold save_knowledge_base loadKnowledgeBase
  cases h : fs.primary <;> simp [h, decodeLessons_enc]

/-- Claim C7 witness: the round-trip at a concrete lesson list and store. -/
theorem knowledge_base_roundtrip_witness :
    loadKnowledgeBase (save_knowledge_base [exLesson0] ⟨none, none⟩).1 = [exLesson0] :=
  knowledge_base_roundtrip [exLesson0] ⟨none, none⟩

/-- Claim C2 counterexample: a store whose primary snapshot holds
`[exLesson0]` loads as `[exLesson0]`; after a replace that crashes in the
middle of writing the new snapshot, loading returns `[]`, not the prior
snapshot.  The claim that a failed replace leaves `loadKnowledgeBase`
returning the prior snapshot unchanged is therefore false. -/
theorem save_crash_load_not_prior :
    loadKnowledgeBase exStore0 = [exLesson0] ∧
    loadKnowledgeBase (save_knowledge_base_crashMidWrite [exLesson1] exStore0) = [] ∧
    loadKnowledgeBase (save_knowledge_base_crashMidWrite [exLesson1] exStore0)
      ≠ loadKnowledgeBase exStore0 := by
  decide

/-- Claim C2 (amended): if a replace crashes partway through writing the new
snapshot, the prior snapshot survives unchanged at the backup location — the
previously good state is never destroyed — but a subsequent
`loadKnowledgeBase`, which reads only the primary file, returns the empty
knowledge base rather than the prior snapshot. -/
theorem save_crash_backup_preserved_load_empty (fs : KBStore) (K new : List Lesson)
    (h : fs.primary = some (.jsonData (encodeLessons K))) :
    (save_knowledge_base_crashMidWrite new fs).backup
      = some (.jsonData (encodeLessons K))
    ∧ loadKnowledgeBase (save_knowledge_base_crashMidWrite new fs) = [] := by
  unfold save_knowledge_base_crashMidWrite loadKnowledgeBase
  simp [h]

/-- Claim C2 witness: the amended statement at a concrete store and
snapshots. -/
theorem save_crash_backup_preserved_load_empty_witness :
    (save_knowledge_base_crashMidWrite [exLesson1] exStore0).backup
      = some (.jsonData (encodeLessons [exLesson0]))
    ∧ loadKnowledgeBase (save_knowledge_base_crashMidWrite [exLesson1] exStore0) = [] :=
  save_crash_backup_preserved_load_empty exStore0 [exLesson0] [exLesson1] rfl

/-! ## Theorems about the embedding retriever and upload path -/

/-- Claim C1 (code bug): with a two-document corpus and its index,
`retrieve_relevant_context` with `top_k = 3` returns three documents — the
FAISS `-1` padding label passes the `idx < len(knowledge_base)` guard and
Python's negative indexing turns it into the last document, which is
returned a second time.  The specified behaviour (fewer than `k` results
exactly when the corpus is smaller than `k`, in ascending distance order) is
violated. -/
theorem retrieve_pad_overcount :
    exKB1.length = 2 ∧
    retrieve_relevant_context exEmb exKB1 (some (buildFaissIndex exEmb exKB1)) "q" 3
      = [exDoc0, exDoc1, exDoc1] := by
  decide

/-- Claim C10: an upload whose content yields no extractable text (every
unsupported extension, every corrupt file) produces an error response and
changes nothing: no object written, no document appended, no index
rebuild. -/
theorem upload_no_extract_state_unchanged (ex : Extractors) (sec : String → String)
    (emb : String → List Int) (st : AppState) (filename : String)
    (content : List Nat)
    (h : extract_text_from_file ex content (sec filename) = none) :
    (upload_file ex sec emb st filename content).2 = st ∧
    ∃ msg, (upload_file ex sec emb st filename content).1 = .err msg 400 := by
  unfold upload_file
  by_cases hf : filename == ""
  · rw [if_pos hf]
    exact ⟨rfl, "No file selected", rfl⟩
  · rw [if_neg hf]
    dsimp only
    rw [h]
    exact ⟨rfl, "Could not extract text from file", rfl⟩

/-- Claim C10 witness: an upload of a `.xyz` file against a concrete state
leaves the state exactly unchanged and returns a 400 error. -/
theorem upload_no_extract_state_unchanged_witness :
    (upload_file exExtractors id exEmb exAppState "notes.xyz" [0]).2 = exAppState ∧
    ∃ msg, (upload_file exExtractors id exEmb exAppState "notes.xyz" [0]).1
      = .err msg 400 :=
  upload_no_extract_state_unchanged exExtractors id exEmb exAppState "notes.xyz" [0] rfl
